import Mathlib

/-!
Shallow embedding of the tool-augmented conversation orchestration core of
the `lingua` service, translated from:
  app/services/message_service.py  (MessageService)
  app/core/functions.py            (FunctionRegistry)
  app/core/mcp_client.py           (MCPClient)
  app/api/v1/endpoints/functions.py (register_function)
  app/api/v1/endpoints/chats.py     (create_chat)
  app/api/v1/endpoints/mcp.py       (list_servers)
  app/schemas/*.py, app/db/models.py (data shapes)

Conventions of the embedding:
* Python `Optional[T]` becomes `Option T`; a Python dict used as a record
  becomes a structure; an insertion-ordered dict becomes an association list.
* Python truthiness on strings/lists (`if x:`) is modelled explicitly
  (`truthyStr`, `truthyList`): `None`, `""` and `[]` are falsy.
* A raised exception is an `Except.error` / a distinguished variant; SQLAlchemy
  sessions are modelled by append-only lists.  Every exception path of
  `send_message` ends in `db.commit()`, which also flushes rows added earlier
  in the failed attempt, so modelling `db.add` as an immediate append agrees
  with the observable committed state on every path exercised here.
* Network and `exec` effects are abstracted into data: a provider is a
  function from the request to a response-or-error, a tool handler is a
  function from parsed arguments to a result-or-raised-exception, and the
  meaning of a stored code string is the outcome of `exec`-ing it.
-/

/-- One property of a JSON-schema `properties` map
(`app/core/functions.py` tool-definition derivation). -/
structure ParamProp where
  type : String
  description : String
  enum : Option (List String) := none
  deriving DecidableEq, Repr

/-- The `parameters` object of an OpenAI-style tool schema:
`{type: "object", properties: ..., required: [...]}`. -/
structure ParamSchema where
  type : String := "object"
  properties : List (String × ParamProp) := []
  required : List String := []
  deriving DecidableEq, Repr

/-- The inner `function` object of an OpenAI-style tool definition. -/
structure ToolFunctionDef where
  name : String
  description : String
  parameters : ParamSchema := {}
  deriving DecidableEq, Repr

/-- An OpenAI-style tool definition `{type: "function", function: {...}}`,
the element type of the list built by `FunctionRegistry.get_definitions` and
`MCPClient.get_tools_definitions`. -/
structure ToolDef where
  type : String := "function"
  function : ToolFunctionDef
  deriving DecidableEq, Repr

/-- Embedding of `app/schemas/llm.py` `ToolCall`: `id`, `type` (always "function") and a
`function` dict accessed as `function['name']` and
`function.get('arguments', '{}')` (a JSON string). -/
structure ToolCall where
  id : String
  type : String := "function"
  function_name : String
  function_arguments : Option String := none
  deriving DecidableEq, Repr

/-- Embedding of `app/schemas/message.py` `MessageSendRequest`. -/
structure MessageSendRequest where
  content : String
  provider_name : Option String := none
  model : Option String := none
  include_memories : Bool := false
  enabled_functions : Option (List String) := none
  disabled_functions : Option (List String) := none
  enabled_mcp_tools : Option (List String) := none
  disabled_mcp_tools : Option (List String) := none
  tool_choice : Option String := none
  deriving DecidableEq, Repr

/-- Embedding of `app/db/models.py` `Chat` row (uuid columns are modelled as `Nat`).
`assistant_id` is set by the chats endpoint at creation. -/
structure ChatRec where
  id : Nat
  subtenant_id : Nat
  assistant_id : Option Nat := none
  title : Option String := none
  enabled_functions : Option (List String) := none
  enabled_mcp_tools : Option (List String) := none
  deriving DecidableEq, Repr

/-- Python `s.startswith(pre)`, stated on the underlying character lists. -/
def pyStartsWith (s pre : String) : Bool :=
  pre.data.isPrefixOf s.data

/-- Python truthiness of an optional string: `None` and `""` are falsy. -/
def truthyStr : Option String → Bool
  | some s => !s.isEmpty
  | none => false

/-- Python truthiness of an optional list: `None` and `[]` are falsy. -/
def truthyList {α : Type} : Option (List α) → Bool
  | some (_ :: _) => true
  | _ => false

/-- Python `a or b` on optional strings (used for `request.model or
settings.default_model` and similar fallbacks). -/
def pyOrStr (a b : Option String) : Option String :=
  if truthyStr a then a else b

/-- Embedding of `MessageService._prepare_tools` (app/services/message_service.py lines
88-167).  Inputs `allFunctionTools` / `allMcpTools` are the values of
`function_registry.get_definitions()` and `mcp_client.get_tools_definitions()`.
Returns `(tools if tools else None, enabled_functions, enabled_mcp_tools)`. -/
def prepareTools (request : MessageSendRequest) (chat : ChatRec)
    (allFunctionTools allMcpTools : List ToolDef) :
    Option (List ToolDef) × List String × List String :=
  -- Priority: request overrides > chat defaults > all functions
  let ef0 : Option (List String) :=
    if request.enabled_functions.isSome then request.enabled_functions
    else if chat.enabled_functions.isSome then chat.enabled_functions
    else none
  let fpair : List ToolDef × Option (List String) :=
    match ef0 with
    | some l => (allFunctionTools.filter (fun t => l.contains t.function.name), some l)
    | none =>
      match request.disabled_functions with
      | some d => (allFunctionTools.filter (fun t => !d.contains t.function.name), none)
      | none => (allFunctionTools, some (allFunctionTools.map (fun t => t.function.name)))
  let em0 : Option (List String) :=
    if request.enabled_mcp_tools.isSome then request.enabled_mcp_tools
    else if chat.enabled_mcp_tools.isSome then chat.enabled_mcp_tools
    else none
  let mpair : List ToolDef × Option (List String) :=
    match em0 with
    | some l => (allMcpTools.filter (fun t => l.contains t.function.name), some l)
    | none =>
      match request.disabled_mcp_tools with
      | some d => (allMcpTools.filter (fun t => !d.contains t.function.name), none)
      | none => (allMcpTools, some (allMcpTools.map (fun t => t.function.name)))
  let tools := fpair.1 ++ mpair.1
  -- Ensure we have lists even if no tools were selected
  let enabledFunctions :=
    match fpair.2 with
    | some l => l
    | none => fpair.1.map (fun t => t.function.name)
  let enabledMcpTools :=
    match mpair.2 with
    | some l => l
    | none => mpair.1.map (fun t => t.function.name)
  ((if tools.isEmpty then none else some tools), enabledFunctions, enabledMcpTools)

/-- The spec's tool filter rule, transcribed from its own words, for one tool
source: request enabled-list first, else chat default enabled-list, else all
available minus the request disabled-list, else all available. -/
def specSourceCatalog (reqEnabled chatEnabled reqDisabled : Option (List String))
    (available : List ToolDef) : List ToolDef :=
  match reqEnabled with
  | some l => available.filter (fun t => l.contains t.function.name)
  | none =>
    match chatEnabled with
    | some l => available.filter (fun t => l.contains t.function.name)
    | none =>
      match reqDisabled with
      | some d => available.filter (fun t => !d.contains t.function.name)
      | none => available

theorem prepareTools_fst_eq_spec (request : MessageSendRequest) (chat : ChatRec)
    (allFunctionTools allMcpTools : List ToolDef) :
    (prepareTools request chat allFunctionTools allMcpTools).1 =
      (let cat :=
        specSourceCatalog request.enabled_functions chat.enabled_functions
            request.disabled_functions allFunctionTools
          ++ specSourceCatalog request.enabled_mcp_tools chat.enabled_mcp_tools
            request.disabled_mcp_tools allMcpTools
       if cat.isEmpty then none else some cat) := by
  unfold prepareTools specSourceCatalog
  rcases hef : request.enabled_functions with _ | l₁ <;>
    rcases hcf : chat.enabled_functions with _ | l₂ <;>
      rcases hdf : request.disabled_functions with _ | l₃ <;>
        rcases hem : request.enabled_mcp_tools with _ | l₄ <;>
          rcases hcm : chat.enabled_mcp_tools with _ | l₅ <;>
            rcases hdm : request.disabled_mcp_tools with _ | l₆ <;>
              simp

/-- A raised Python exception, keeping the distinction
`MessageService._execute_function`'s `except ValueError` clause dispatches
on: a `ValueError` (raised by the registry's not-found signal, by a tool
handler's own code, or by `exec` of stored code) versus any other exception
type; each carries its `str(e)` text. -/
inductive PyExc where
  | valueError : String → PyExc
  | other : String → PyExc
  deriving DecidableEq, Repr

/-- Python `str(e)`: the exception's message. -/
def PyExc.str : PyExc → String
  | .valueError s => s
  | .other s => s

/-- The behaviour of a tool handler: parsed arguments in, either a result
(already in the string form produced by the `json.dumps`-unless-`str`
conversion of the call sites) or a raised exception, tagged with its Python
type. -/
abbrev Handler := List (String × String) → Except PyExc String

/-- A parsed JSON argument object (`json.loads` output), as an ordered list of
key/value pairs with JSON-encoded values. -/
abbrev Args := List (String × String)

/-- Association-list lookup, modelling a Python dict read `d.get(k)`. -/
def assocFind {α : Type} (l : List (String × α)) (k : String) : Option α :=
  (l.find? (fun p => p.1 == k)).map (fun p => p.2)

/-- Association-list write, modelling a Python dict write `d[k] = v`
(overwrite in place if the key exists, else append). -/
def assocSet {α : Type} (l : List (String × α)) (k : String) (v : α) :
    List (String × α) :=
  if l.any (fun p => p.1 == k) then
    l.map (fun p => if p.1 == k then (k, v) else p)
  else l ++ [(k, v)]

/-- A `registered_functions` row (`app/db/models.py` `RegisteredFunction`).
The stored `code` column is represented by the outcome of `exec`-ing it:
either a raised exception (with its Python type), or the resulting namespace
in definition order, each symbol paired with its behaviour when it is
callable (`none` marks a non-callable binding). -/
structure RegisteredFunctionRec where
  name : String
  description : String
  parameters : ParamSchema := {}
  codeExec : Except PyExc (List (String × Option Handler))
  is_active : Bool := true

/-- Embedding of `app/core/functions.py` `FunctionRegistry` in-memory state: built-in
handlers with their cached tool definitions, and the lazily loaded cache of
database-backed handlers.  The durable table itself is passed to the
operations that read it. -/
structure FunctionRegistry where
  functions : List (String × Handler) := []
  definitions : List (String × ToolDef) := []
  db_functions : List (String × Handler) := []

/-- Embedding of `FunctionRegistry.get_function`: built-in functions first, then the
database-function cache. -/
def FunctionRegistry.get_function (r : FunctionRegistry) (name : String) :
    Option Handler :=
  match assocFind r.functions name with
  | some h => some h
  | none => assocFind r.db_functions name

/-- Embedding of `FunctionRegistry.get_definitions`: all cached built-in definitions plus,
read fresh from the durable store, one OpenAI-format definition per active
`RegisteredFunction` row. -/
def FunctionRegistry.get_definitions (r : FunctionRegistry)
    (dbFuncs : List RegisteredFunctionRec) : List ToolDef :=
  r.definitions.map (fun p => p.2) ++
    (dbFuncs.filter (fun f => f.is_active)).map (fun f =>
      { type := "function"
        function := { name := f.name, description := f.description,
                      parameters := f.parameters } })

/-- The public-callable test used by `_load_db_function` and the registration
endpoint: `callable(obj) and not name.startswith('_')`. -/
def isPublicCallable (entry : String × Option Handler) : Bool :=
  entry.2.isSome && !pyStartsWith entry.1 "_"

/-- Embedding of `FunctionRegistry._load_db_function`: look up the active row by name,
`exec` its code (a raised exception propagates), bind the first public
callable of the namespace into the cache; silently do nothing when the row is
missing or no public callable exists. -/
def FunctionRegistry.load_db_function (r : FunctionRegistry)
    (dbFuncs : List RegisteredFunctionRec) (name : String) :
    Except PyExc FunctionRegistry :=
  match dbFuncs.find? (fun f => f.name == name && f.is_active) with
  | none => .ok r
  | some f =>
    match f.codeExec with
    | .error e => .error e
    | .ok ns =>
      match ns.find? isPublicCallable with
      | some (_, some h) =>
          .ok { r with db_functions := r.db_functions ++ [(name, h)] }
      | _ => .ok r

/-- Embedding of `FunctionRegistry.execute`: resolve built-ins first, then the cache; on a
miss, load from the durable store and retry; raise `ValueError` (the
distinguished not-found signal) when the name resolves nowhere.  Exceptions
raised by the handler itself or by the lazy load propagate to the caller
untouched, keeping their Python type — so a handler-raised `ValueError`
escapes this method exactly like the not-found raise does. -/
def FunctionRegistry.execute (r : FunctionRegistry)
    (dbFuncs : List RegisteredFunctionRec) (name : String) (arguments : Args) :
    FunctionRegistry × Except PyExc String :=
  match r.get_function name with
  | some h => (r, h arguments)
  | none =>
    match r.load_db_function dbFuncs name with
    | .error exc => (r, .error exc)
    | .ok r2 =>
      match r2.get_function name with
      | some h => (r2, h arguments)
      | none =>
        (r2, .error (.valueError ("Function \x27" ++ name ++ "\x27 not found")))

/-- Embedding of `app/core/mcp_client.py` `MCPServer` configuration. -/
structure MCPServer where
  name : String
  url : String
  protocol : String := "websocket"
  api_key : Option String := none

/-- An `MCPToolHandler`: the owning server, the discovered tool descriptor
(name, description, input schema already translated to the shared parameter
representation by `get_definition`), and the behaviour of executing the tool
against the server (the network call is abstracted into a function). -/
structure MCPToolHandler where
  server : MCPServer
  name : String
  description : String := ""
  parameters : ParamSchema := {}
  run : Handler

/-- A tool descriptor as discovered from a server by `_discover_tools`,
together with the behaviour of calling it. -/
structure MCPToolDescriptor where
  name : String
  description : String := ""
  parameters : ParamSchema := {}
  run : Handler

/-- Embedding of `MCPClient` in-memory state: known servers and the namespaced tool-handler
map, both insertion-ordered dicts. -/
structure MCPClient where
  servers : List (String × MCPServer) := []
  tool_handlers : List (String × MCPToolHandler) := []

/-- Embedding of `MCPClient.connect_server`: record the server, then register one handler
per discovered tool under the composite name `{server.name}_{tool.name}`. -/
def MCPClient.connect_server (c : MCPClient) (server : MCPServer)
    (discovered : List MCPToolDescriptor) : MCPClient :=
  let c1 : MCPClient := { c with servers := assocSet c.servers server.name server }
  { c1 with
    tool_handlers := discovered.foldl (fun hs d =>
      assocSet hs (server.name ++ "_" ++ d.name)
        { server := server, name := d.name, description := d.description,
          parameters := d.parameters, run := d.run }) c1.tool_handlers }

/-- Embedding of `MCPClient.get_tool_handler`. -/
def MCPClient.get_tool_handler (c : MCPClient) (name : String) :
    Option MCPToolHandler :=
  assocFind c.tool_handlers name

/-- Embedding of `MCPClient.get_tools_definitions`: the OpenAI-format definition of every
known handler, named by its namespaced dict key.  (The lazy reconciliation
against the durable server table only marks rows as loaded and updates their
connection status; it registers no handlers, so it does not affect this
list's contents and is omitted here.) -/
def MCPClient.get_tools_definitions (c : MCPClient) : List ToolDef :=
  c.tool_handlers.map (fun p =>
    { type := "function"
      function := { name := p.1, description := p.2.description,
                    parameters := p.2.parameters } })

/-- Embedding of `MCPClient.disconnect_server`: when the server is known, drop its entry
and delete every handler whose namespaced name starts with
`{server_name}_`. -/
def MCPClient.disconnect_server (c : MCPClient) (server_name : String) :
    MCPClient :=
  if c.servers.any (fun p => p.1 == server_name) then
    { servers := c.servers.filter (fun p => p.1 != server_name)
      tool_handlers := c.tool_handlers.filter (fun p =>
        !pyStartsWith p.1 (server_name ++ "_")) }
  else c

/-- The structured error payload `json.dumps({"error": str(e)})` built by
`MessageService._execute_function`. -/
def jsonError (e : String) : String :=
  "\x7b\x22error\x22: \x22" ++ e ++ "\x22\x7d"

/-- The not-found message `f"Function '{name}' not found"`. -/
def functionNotFoundMsg (name : String) : String :=
  "Function \x27" ++ name ++ "\x27 not found"

/-- Embedding of `MessageService._execute_function` (message_service.py lines 169-191):
the inner `except ValueError: pass` swallows *any* `ValueError` escaping the
registry call — the not-found signal, but also a `ValueError` raised inside
the handler or by `exec` during the lazy load — and falls through to the MCP
lookup; other exceptions from the registry call, and every exception from the
MCP handler, reach the outer `except Exception` and become the structured
payload `{"error": str(e)}`; a name found nowhere yields the structured
not-found payload.  The function always returns a result string, it never
raises. -/
def executeFunction (reg : FunctionRegistry)
    (dbFuncs : List RegisteredFunctionRec) (mcp : MCPClient)
    (name : String) (arguments : Args) : FunctionRegistry × String :=
  match reg.execute dbFuncs name arguments with
  | (reg1, .ok s) => (reg1, s)
  | (reg1, .error (.other e)) => (reg1, jsonError e)
  | (reg1, .error (.valueError _)) =>
    match mcp.get_tool_handler name with
    | some h =>
      match h.run arguments with
      | .ok s => (reg1, s)
      | .error exc => (reg1, jsonError exc.str)
    | none => (reg1, jsonError (functionNotFoundMsg name))

/-- A `messages` row (`app/db/models.py` `Message`); rows appear in the list
in creation order, the canonical conversation order. -/
structure Msg where
  chat_id : Nat
  role : String
  content : Option String := none
  tool_calls : Option (List ToolCall) := none
  tool_call_id : Option String := none
  name : Option String := none
  enabled_functions : Option (List String) := none
  enabled_mcp_tools : Option (List String) := none
  deriving DecidableEq, Repr

/-- A `memories` row. -/
structure MemoryRec where
  subtenant_id : Nat
  key : String
  value : String
  deriving DecidableEq, Repr

/-- A `request_logs` row, restricted to the columns the claims are about. -/
structure RequestLogRec where
  chat_id : Nat
  provider : String
  model : String
  status_code : Option Nat := none
  error : Option String := none
  deriving DecidableEq, Repr

/-- The database state visible to the orchestrator, with each table an
append-ordered list of rows. -/
structure DB where
  chats : List ChatRec := []
  messages : List Msg := []
  memories : List MemoryRec := []
  registered_functions : List RegisteredFunctionRec := []
  request_logs : List RequestLogRec := []

/-- A provider-neutral message dict as assembled for an `LLMRequest`
(`role` plus the optional keys the two conversion loops may add). -/
structure LLMMsg where
  role : String
  content : Option String := none
  name : Option String := none
  tool_call_id : Option String := none
  tool_calls : Option (List ToolCall) := none
  deriving DecidableEq, Repr

/-- Embedding of `app/schemas/llm.py` `LLMRequest`, restricted to the fields
`MessageService` sets. -/
structure LLMRequest where
  messages : List LLMMsg
  model : Option String := none
  stream : Bool := false
  tools : Option (List ToolDef) := none
  tool_choice : Option String := none
  deriving DecidableEq, Repr

/-- Embedding of `app/schemas/llm.py` `LLMResponse`. -/
structure LLMResponse where
  content : Option String := none
  role : String := "assistant"
  tool_calls : Option (List ToolCall) := none
  usage : Option (List (String × Nat)) := none
  model : String
  provider : String
  deriving DecidableEq, Repr

/-- A model provider: `complete` is the blocking call, `streamChunks` the
incremental variant collapsed to the list of text chunks it yields (an
`Except.error` models a raised provider exception). -/
structure Provider where
  name : String
  default_model : String
  complete : LLMRequest → Except String LLMResponse
  streamChunks : LLMRequest → Except String (List String)

/-- The ambient process state `send_message` runs against: the provider
picked by the factory, the two global tool registries, the meaning of
`json.loads` on tool-call argument payloads, and `settings.default_model`. -/
structure Env where
  provider : Provider
  registry : FunctionRegistry
  mcp : MCPClient
  parseJson : String → Except String Args
  default_model : Option String

/-- First history-to-LLM conversion (message_service.py lines 54-66): the
`content` key is always set; `name`, `tool_call_id` and `tool_calls` only
when truthy. -/
def toLLMMsgFirst (m : Msg) : LLMMsg :=
  { role := m.role
    content := m.content
    name := if truthyStr m.name then m.name else none
    tool_call_id := if truthyStr m.tool_call_id then m.tool_call_id else none
    tool_calls := if truthyList m.tool_calls then m.tool_calls else none }

/-- Second history-to-LLM conversion (message_service.py lines 289-302);
unlike the first it also drops a falsy `content`. -/
def toLLMMsgSecond (m : Msg) : LLMMsg :=
  { role := m.role
    content := if truthyStr m.content then m.content else none
    name := if truthyStr m.name then m.name else none
    tool_call_id := if truthyStr m.tool_call_id then m.tool_call_id else none
    tool_calls := if truthyList m.tool_calls then m.tool_calls else none }

/-- The synthesized memory system-message body:
`"User context:\n"` followed by one `- key: value` line per memory. -/
def memoryContent (ms : List MemoryRec) : String :=
  "User context:\n" ++
    String.join (ms.map (fun m => "- " ++ m.key ++ ": " ++ m.value ++ "\n"))

/-- The result tuple of `MessageService._prepare_chat_context`. -/
structure ChatContext where
  db : DB
  user_message : Msg
  llm_messages : List LLMMsg
  enabled_functions : List String
  enabled_mcp_tools : List String
  available_tools : Option (List ToolDef)

/-- Embedding of `MessageService._prepare_chat_context` (message_service.py lines 23-85):
compute the tool configuration, persist the user message stamped with it,
load the chat's ordered history, convert it, and prepend the memory system
message when requested. -/
def prepare_chat_context (env : Env) (chat_id : Nat)
    (request : MessageSendRequest) (db : DB) (chat : ChatRec) : ChatContext :=
  let prepared :=
    prepareTools request chat
      (env.registry.get_definitions db.registered_functions)
      env.mcp.get_tools_definitions
  let user_message : Msg :=
    { chat_id := chat_id, role := "user", content := some request.content,
      enabled_functions := some prepared.2.1,
      enabled_mcp_tools := some prepared.2.2 }
  let db1 : DB := { db with messages := db.messages ++ [user_message] }
  let chatMessages := db1.messages.filter (fun m => m.chat_id == chat_id)
  let llm0 := chatMessages.map toLLMMsgFirst
  let llm_messages :=
    if request.include_memories then
      let mems := db1.memories.filter (fun m => m.subtenant_id == chat.subtenant_id)
      if mems.isEmpty then llm0
      else ({ role := "system", content := some (memoryContent mems) } : LLMMsg) :: llm0
    else llm0
  { db := db1, user_message := user_message, llm_messages := llm_messages,
    enabled_functions := prepared.2.1, enabled_mcp_tools := prepared.2.2,
    available_tools := prepared.1 }

/-- The `LLMRequest` built from a prepared context (`send_message` with
`stream=False`, `stream_message` with `stream=True`; both use
`request.model or settings.default_model`). -/
def requestOfContext (env : Env) (ctx : ChatContext)
    (request : MessageSendRequest) (stream : Bool) : LLMRequest :=
  { messages := ctx.llm_messages, tools := ctx.available_tools,
    tool_choice := request.tool_choice, stream := stream,
    model := pyOrStr request.model env.default_model }

/-- The `RequestLog` skeleton created before the provider call, with the
`model=llm_request.model or provider.default_model` fallback. -/
def logBase (env : Env) (chat_id : Nat) (model : Option String) :
    RequestLogRec :=
  { chat_id := chat_id, provider := env.provider.name,
    model := (pyOrStr model (some env.provider.default_model)).getD "" }

/-- The observable effect of one `send_message`/`stream_message` call: the
database afterwards, the registry cache afterwards, the returned final
message or the raised error, and — as an explicit trace — the provider
requests issued, the tool calls actually executed, and the streamed chunks
forwarded to the caller. -/
structure SendEffects where
  db : DB
  registry : FunctionRegistry
  result : Except (Nat × String) Msg
  provider_requests : List LLMRequest
  executed_calls : List (String × Args)
  streamed : List String := []

/-- The text of the `TypeError` raised by slicing a `None` response content
(`llm_response.content[:1000]`). -/
def noneSliceError : String :=
  "TypeError: \x27NoneType\x27 object is not subscriptable"

/-- The per-round tool loop of `send_message` (message_service.py lines
260-281): for each call in order, `json.loads` the argument payload (a parse
failure raises out of the loop), execute via `_execute_function`, and persist
one `tool`-role message carrying the result, linked by `tool_call_id`.
Returns the updated registry cache, the tool messages persisted (in order),
the executed (name, arguments) pairs, and the raised error if any. -/
def execToolLoop (env : Env) (dbFuncs : List RegisteredFunctionRec)
    (chat_id : Nat) :
    FunctionRegistry → List ToolCall →
      FunctionRegistry × List Msg × List (String × Args) × Option String
  | reg, [] => (reg, [], [], none)
  | reg, tc :: rest =>
    match env.parseJson (tc.function_arguments.getD "\x7b\x7d") with
    | .error e => (reg, [], [], some e)
    | .ok args =>
      let step := executeFunction reg dbFuncs env.mcp tc.function_name args
      let tool_message : Msg :=
        { chat_id := chat_id, role := "tool", tool_call_id := some tc.id,
          name := some tc.function_name, content := some step.2 }
      let restOut := execToolLoop env dbFuncs chat_id step.1 rest
      (restOut.1, tool_message :: restOut.2.1,
        (tc.function_name, args) :: restOut.2.2.1, restOut.2.2.2)

/-- The assistant message persisted to carry the raw tool-call list
(`content=llm_response.content or ""`). -/
def assistantToolMsg (chat_id : Nat) (resp : LLMResponse)
    (ctx : ChatContext) : Msg :=
  { chat_id := chat_id, role := "assistant",
    content := some (resp.content.getD ""),
    tool_calls := some (resp.tool_calls.getD []),
    enabled_functions := some ctx.enabled_functions,
    enabled_mcp_tools := some ctx.enabled_mcp_tools }

/-- The follow-up `LLMRequest` of the tool branch: the re-read updated
history (second conversion) with the same tool schema, tool choice, and
model as the first request. -/
def followupRequest (env : Env) (chat_id : Nat)
    (request : MessageSendRequest) (db : DB) (chat : ChatRec)
    (resp1 : LLMResponse) : LLMRequest :=
  let ctx := prepare_chat_context env chat_id request db chat
  let db2 : DB :=
    { ctx.db with messages := ctx.db.messages ++ [assistantToolMsg chat_id resp1 ctx] }
  let loopOut :=
    execToolLoop env db.registered_functions chat_id env.registry
      (resp1.tool_calls.getD [])
  let db3 : DB := { db2 with messages := db2.messages ++ loopOut.2.1 }
  { messages := (db3.messages.filter (fun m => m.chat_id == chat_id)).map toLLMMsgSecond,
    tools := ctx.available_tools, tool_choice := request.tool_choice,
    stream := false, model := pyOrStr request.model env.default_model }

/-- The tool-call branch of `send_message` (message_service.py lines
244-347), entered when the first response's tool-call list is truthy. -/
def sendMessageToolBranch (env : Env) (chat_id : Nat)
    (request : MessageSendRequest) (db : DB) (chat : ChatRec)
    (ctx : ChatContext) (llm_request : LLMRequest) (resp1 : LLMResponse) :
    SendEffects :=
  let db2 : DB :=
    { ctx.db with messages := ctx.db.messages ++ [assistantToolMsg chat_id resp1 ctx] }
  let loopOut :=
    execToolLoop env db.registered_functions chat_id env.registry
      (resp1.tool_calls.getD [])
  let db3 : DB := { db2 with messages := db2.messages ++ loopOut.2.1 }
  match loopOut.2.2.2 with
  | some e =>
    -- json.loads raised inside the loop; the except block logs and re-raises
    { db := { db3 with request_logs := db3.request_logs ++
        [{ logBase env chat_id llm_request.model with
             status_code := some 500, error := some e }] }
      registry := loopOut.1, result := .error (500, e),
      provider_requests := [llm_request], executed_calls := loopOut.2.2.1 }
  | none =>
    let followup := followupRequest env chat_id request db chat resp1
    match env.provider.complete followup with
    | .error e =>
      { db := { db3 with request_logs := db3.request_logs ++
          [{ logBase env chat_id llm_request.model with
               status_code := some 500, error := some e }] }
        registry := loopOut.1, result := .error (500, e),
        provider_requests := [llm_request, followup],
        executed_calls := loopOut.2.2.1 }
    | .ok final_response =>
      let final_message : Msg :=
        { chat_id := chat_id, role := final_response.role,
          content := final_response.content,
          enabled_functions := some ctx.enabled_functions,
          enabled_mcp_tools := some ctx.enabled_mcp_tools }
      let db4 : DB := { db3 with messages := db3.messages ++ [final_message] }
      match final_response.content with
      | none =>
        -- final_response.content[:1000] raises; the pending final message is
        -- committed together with the 500 log by the except block
        { db := { db4 with request_logs := db4.request_logs ++
            [{ logBase env chat_id llm_request.model with
                 status_code := some 500, error := some noneSliceError }] }
          registry := loopOut.1, result := .error (500, noneSliceError),
          provider_requests := [llm_request, followup],
          executed_calls := loopOut.2.2.1 }
      | some _ =>
        { db := { db4 with request_logs := db4.request_logs ++
            [{ logBase env chat_id llm_request.model with status_code := some 200 }] }
          registry := loopOut.1, result := .ok final_message,
          provider_requests := [llm_request, followup],
          executed_calls := loopOut.2.2.1 }

/-- The no-tool-call branch of `send_message` (message_service.py lines
349-377). -/
def sendMessagePlainBranch (env : Env) (chat_id : Nat) (ctx : ChatContext)
    (llm_request : LLMRequest) (resp : LLMResponse) : SendEffects :=
  let assistant_message : Msg :=
    { chat_id := chat_id, role := resp.role, content := resp.content,
      enabled_functions := some ctx.enabled_functions,
      enabled_mcp_tools := some ctx.enabled_mcp_tools }
  let db2 : DB := { ctx.db with messages := ctx.db.messages ++ [assistant_message] }
  match resp.content with
  | none =>
    { db := { db2 with request_logs := db2.request_logs ++
        [{ logBase env chat_id llm_request.model with
             status_code := some 500, error := some noneSliceError }] }
      registry := env.registry, result := .error (500, noneSliceError),
      provider_requests := [llm_request], executed_calls := [] }
  | some _ =>
    { db := { db2 with request_logs := db2.request_logs ++
        [{ logBase env chat_id llm_request.model with status_code := some 200 }] }
      registry := env.registry, result := .ok assistant_message,
      provider_requests := [llm_request], executed_calls := [] }

/-- Embedding of `MessageService.send_message` once the chat row has been found. -/
def sendMessageWithChat (env : Env) (chat_id : Nat)
    (request : MessageSendRequest) (db : DB) (chat : ChatRec) : SendEffects :=
  let ctx := prepare_chat_context env chat_id request db chat
  let llm_request := requestOfContext env ctx request false
  match env.provider.complete llm_request with
  | .error e =>
    { db := { ctx.db with request_logs := ctx.db.request_logs ++
        [{ logBase env chat_id llm_request.model with
             status_code := some 500, error := some e }] }
      registry := env.registry, result := .error (500, e),
      provider_requests := [llm_request], executed_calls := [] }
  | .ok llm_response =>
    if truthyList llm_response.tool_calls then
      sendMessageToolBranch env chat_id request db chat ctx llm_request llm_response
    else
      sendMessagePlainBranch env chat_id ctx llm_request llm_response

/-- Embedding of `MessageService.send_message` (message_service.py lines 193-386):
a missing chat raises `HTTPException(404)` before any side effect. -/
def sendMessage (env : Env) (chat_id : Nat) (request : MessageSendRequest)
    (db : DB) : SendEffects :=
  match db.chats.find? (fun c => c.id == chat_id) with
  | none =>
    { db := db, registry := env.registry,
      result := .error (404, "Chat not found"),
      provider_requests := [], executed_calls := [] }
  | some chat => sendMessageWithChat env chat_id request db chat

/-- Embedding of `MessageService.stream_message` (message_service.py lines 388-484):
identical chat lookup and context preparation, a streaming provider call
whose text chunks are forwarded and accumulated, one assistant message
holding the accumulated text, no tool execution and no second call. -/
def streamMessage (env : Env) (chat_id : Nat) (request : MessageSendRequest)
    (db : DB) : SendEffects :=
  match db.chats.find? (fun c => c.id == chat_id) with
  | none =>
    { db := db, registry := env.registry,
      result := .error (404, "Chat not found"),
      provider_requests := [], executed_calls := [] }
  | some chat =>
    let ctx := prepare_chat_context env chat_id request db chat
    let llm_request := requestOfContext env ctx request true
    match env.provider.streamChunks llm_request with
    | .error e =>
      { db := { ctx.db with request_logs := ctx.db.request_logs ++
          [{ logBase env chat_id llm_request.model with
               status_code := some 500, error := some e }] }
        registry := env.registry, result := .error (500, e),
        provider_requests := [llm_request], executed_calls := [] }
    | .ok chunks =>
      let full_content := String.join chunks
      let assistant_message : Msg :=
        { chat_id := chat_id, role := "assistant",
          content := some full_content,
          enabled_functions := some ctx.enabled_functions,
          enabled_mcp_tools := some ctx.enabled_mcp_tools }
      { db := { ctx.db with
          messages := ctx.db.messages ++ [assistant_message]
          request_logs := ctx.db.request_logs ++
            [{ logBase env chat_id llm_request.model with status_code := some 200 }] }
        registry := env.registry, result := .ok assistant_message,
        provider_requests := [llm_request], executed_calls := [],
        streamed := chunks }

/-- Embedding of `app/schemas/functions.py` `FunctionParameter` as supplied in a
registration request. -/
structure FunctionParameterReq where
  name : String
  type : String
  description : String
  required : Bool := true
  enum : Option (List String) := none
  deriving Repr

/-- A `RegisterFunctionRequest`: name, description, declared parameters, and
the supplied source code — represented, as for stored rows, by the outcome of
`exec`-ing it. -/
structure RegisterFunctionRequest where
  name : String
  description : String
  parameters : List FunctionParameterReq
  codeExec : Except PyExc (List (String × Option Handler))

/-- The parameter-schema conversion loop shared by the registration and
update endpoints (functions.py lines 67-83). -/
def buildParametersSchema (ps : List FunctionParameterReq) : ParamSchema :=
  { type := "object"
    properties := ps.map (fun p =>
      (p.name, { type := p.type, description := p.description, enum := p.enum }))
    required := (ps.filter (fun p => p.required)).map (fun p => p.name) }

/-- Embedding of `register_function` (app/api/v1/endpoints/functions.py lines 48-102):
`exec` the supplied code (a raised exception is caught into an HTTP 400),
require a public callable in the namespace (the first one found becomes the
handler), convert the parameters, and insert the durable row — the table's
unique name constraint turns a duplicate into an `IntegrityError`, also
caught into a 400.  On success the new row is returned and appended. -/
def register_function (request : RegisterFunctionRequest)
    (dbFuncs : List RegisteredFunctionRec) :
    Except (Nat × String) (List RegisteredFunctionRec × RegisteredFunctionRec) :=
  match request.codeExec with
  | .error e => .error (400, e.str)
  | .ok ns =>
    match ns.find? isPublicCallable with
    | none => .error (400, "No callable function found in the provided code")
    | some _ =>
      if dbFuncs.any (fun f => f.name == request.name) then
        .error (400, "IntegrityError: duplicate key value violates unique constraint")
      else
        let row : RegisteredFunctionRec :=
          { name := request.name, description := request.description,
            parameters := buildParametersSchema request.parameters,
            codeExec := request.codeExec, is_active := true }
        .ok (dbFuncs ++ [row], row)

/-- An `mcp_servers` row (`app/db/models.py` `MCPServerModel`); timestamps
are modelled as `Nat`. -/
structure MCPServerRec where
  id : Nat
  name : String
  url : String
  protocol : String := "websocket"
  api_key : Option String := none
  is_active : Bool := true
  last_connected : Option Nat := none
  connection_status : String := "disconnected"
  error_message : Option String := none
  created_at : Nat := 0
  updated_at : Nat := 0
  deriving DecidableEq, Repr

/-- Embedding of `app/schemas/mcp.py` `MCPServerResponse`: the serialized read
representation of a server row — it has no `api_key` field. -/
structure MCPServerResponse where
  id : Nat
  name : String
  url : String
  protocol : String
  is_active : Bool
  connection_status : String
  last_connected : Option Nat := none
  error_message : Option String := none
  created_at : Nat
  updated_at : Nat
  deriving DecidableEq, Repr

/-- Serialization of a row through `MCPServerResponse` (`from_attributes`
pydantic conversion used by the create, list, and update endpoints). -/
def MCPServerResponse.from_record (r : MCPServerRec) : MCPServerResponse :=
  { id := r.id, name := r.name, url := r.url, protocol := r.protocol,
    is_active := r.is_active, connection_status := r.connection_status,
    last_connected := r.last_connected, error_message := r.error_message,
    created_at := r.created_at, updated_at := r.updated_at }

/-- Embedding of `list_servers` (app/api/v1/endpoints/mcp.py lines 65-69): every stored
row, serialized through `MCPServerResponse`. -/
def list_servers (dbServers : List MCPServerRec) : List MCPServerResponse :=
  dbServers.map MCPServerResponse.from_record

/-- An `assistants` row, with the columns the chats endpoint and the
assistant schemas read (`app/schemas/assistant.py`,
app/api/v1/endpoints/assistants.py). -/
structure AssistantRec where
  id : Nat
  subtenant_id : Option Nat := none
  name : String
  description : Option String := none
  system_prompt : Option String := none
  enabled_functions : Option (List String) := none
  enabled_mcp_tools : Option (List String) := none
  is_active : Bool := true
  deriving DecidableEq, Repr

/-- Embedding of `app/schemas/chat.py` `ChatCreate`. -/
structure ChatCreate where
  title : Option String := none
  system_message : Option String := none
  enabled_functions : Option (List String) := none
  enabled_mcp_tools : Option (List String) := none
  assistant_id : Option Nat := none
  deriving DecidableEq, Repr

/-- What `create_chat` persists: the chat row and the seeded system message,
if any. -/
structure CreateChatResult where
  chat : ChatRec
  system_messages : List Msg
  deriving DecidableEq, Repr

/-- The chat-construction part of `create_chat` (chats.py lines 38-66): build
the row from the request, overlay the assistant presets where the request
value is falsy and the assistant value truthy, and seed a system message from
`chat.system_message or assistant.system_prompt` when that is truthy. -/
def buildChat (subtenant_id : Nat) (chat : ChatCreate)
    (assistant : Option AssistantRec) (newChatId : Nat) : CreateChatResult :=
  let db_chat : ChatRec :=
    { id := newChatId, subtenant_id := subtenant_id,
      assistant_id := chat.assistant_id, title := chat.title,
      enabled_functions := chat.enabled_functions,
      enabled_mcp_tools := chat.enabled_mcp_tools }
  let db_chat :=
    match assistant with
    | some a =>
      let c1 :=
        if !truthyList chat.enabled_functions && truthyList a.enabled_functions
        then { db_chat with enabled_functions := a.enabled_functions }
        else db_chat
      if !truthyList chat.enabled_mcp_tools && truthyList a.enabled_mcp_tools
      then { c1 with enabled_mcp_tools := a.enabled_mcp_tools }
      else c1
    | none => db_chat
  let system_content : Option String :=
    if truthyStr chat.system_message then chat.system_message
    else match assistant with
         | some a => a.system_prompt
         | none => none
  let system_messages : List Msg :=
    if truthyStr system_content then
      [{ chat_id := newChatId, role := "system", content := system_content }]
    else []
  { chat := db_chat, system_messages := system_messages }

/-- Embedding of `create_chat` (app/api/v1/endpoints/chats.py lines 13-69): verify the
subtenant; when an assistant id is given, require an active assistant that is
globally visible or owned by this subtenant; then build and persist the chat
and its optional seeded system message. -/
def create_chat (subtenant_id : Nat) (chat : ChatCreate)
    (subtenants : List Nat) (assistants : List AssistantRec)
    (newChatId : Nat) : Except (Nat × String) CreateChatResult :=
  if !subtenants.contains subtenant_id then
    .error (404, "Subtenant not found")
  else
    match chat.assistant_id with
    | some aid =>
      match assistants.find? (fun a => a.id == aid && a.is_active) with
      | none => .error (404, "Assistant not found")
      | some assistant =>
        if assistant.subtenant_id.isSome && assistant.subtenant_id != some subtenant_id
        then .error (403, "Assistant not accessible for this subtenant")
        else .ok (buildChat subtenant_id chat (some assistant) newChatId)
    | none => .ok (buildChat subtenant_id chat none newChatId)

/-! ### Test fixtures used by witnesses and counterexamples -/

/-- A handler that returns an empty JSON string result. -/
def handlerOk : Handler := fun _ => .ok "\x22ok\x22"

/-- A provider whose calls always raise. -/
def provFailing : Provider :=
  { name := "mock", default_model := "m",
    complete := fun _ => .error "boom",
    streamChunks := fun _ => .error "boom" }

/-- An environment with no tools and a failing provider. -/
def envFailing : Env :=
  { provider := provFailing, registry := {}, mcp := {},
    parseJson := fun _ => .ok [], default_model := some "m" }

/-- A minimal send request. -/
def reqBasic : MessageSendRequest := { content := "hi" }

/-- An empty database. -/
def dbEmpty : DB := {}

/-- A database holding exactly chat 1 of subtenant 1. -/
def dbOneChat : DB := { chats := [{ id := 1, subtenant_id := 1 }] }

/-! ### C9 — credential never surfaced in read responses -/

/-- C9: the serialized read representation of an external tool server has no
credential field: serializing a row whose `api_key` has been replaced by any
other value yields the identical response, both for a single row and for the
full `list_servers` read (the create and update endpoints serialize through
the same `MCPServerResponse` conversion). -/
theorem mcp_server_read_hides_credential (r : MCPServerRec)
    (k : Option String) (rows : List MCPServerRec) :
    MCPServerResponse.from_record { r with api_key := k } =
        MCPServerResponse.from_record r
    ∧ list_servers (rows.map (fun x => { x with api_key := k })) =
        list_servers rows := by
  refine ⟨rfl, ?_⟩
  simp only [list_servers, List.map_map]
  rfl

/-! ### C8 — send to a nonexistent chat has no side effects -/

/-- C8: when no chat row matches the requested id, both `send_message` and
`stream_message` fail with the 404 `HTTPException` raised before any side
effect: the message and request-log tables are untouched and no provider
request is issued. -/
theorem send_to_missing_chat_no_side_effects (env : Env) (chat_id : Nat)
    (request : MessageSendRequest) (db : DB)
    (h : db.chats.find? (fun c => c.id == chat_id) = none) :
    (sendMessage env chat_id request db).result = .error (404, "Chat not found")
    ∧ (sendMessage env chat_id request db).db.messages = db.messages
    ∧ (sendMessage env chat_id request db).db.request_logs = db.request_logs
    ∧ (sendMessage env chat_id request db).provider_requests = []
    ∧ (streamMessage env chat_id request db).result = .error (404, "Chat not found")
    ∧ (streamMessage env chat_id request db).db.messages = db.messages
    ∧ (streamMessage env chat_id request db).db.request_logs = db.request_logs
    ∧ (streamMessage env chat_id request db).provider_requests = [] := by
  simp [sendMessage, streamMessage, h]

theorem send_to_missing_chat_no_side_effects_witness :
    (sendMessage envFailing 1 reqBasic dbEmpty).result = .error (404, "Chat not found")
    ∧ (sendMessage envFailing 1 reqBasic dbEmpty).db.messages = dbEmpty.messages
    ∧ (sendMessage envFailing 1 reqBasic dbEmpty).db.request_logs = dbEmpty.request_logs
    ∧ (sendMessage envFailing 1 reqBasic dbEmpty).provider_requests = []
    ∧ (streamMessage envFailing 1 reqBasic dbEmpty).result = .error (404, "Chat not found")
    ∧ (streamMessage envFailing 1 reqBasic dbEmpty).db.messages = dbEmpty.messages
    ∧ (streamMessage envFailing 1 reqBasic dbEmpty).db.request_logs = dbEmpty.request_logs
    ∧ (streamMessage envFailing 1 reqBasic dbEmpty).provider_requests = [] :=
  send_to_missing_chat_no_side_effects envFailing 1 reqBasic dbEmpty rfl

/-! ### C2 — the effective tool catalog -/

/-- C2: the effective tool catalog passed to the model provider — the `tools`
field of the `LLMRequest` both paths build from the prepared context — equals,
for each tool source independently, the spec's filter rule applied to that
source's available tools, the two results concatenated into one schema list
(and `None` when that union is empty). -/
theorem effective_tool_catalog_matches_spec (env : Env) (chat_id : Nat)
    (request : MessageSendRequest) (db : DB) (chat : ChatRec) (stream : Bool) :
    (requestOfContext env (prepare_chat_context env chat_id request db chat)
        request stream).tools =
      (let cat :=
        specSourceCatalog request.enabled_functions chat.enabled_functions
            request.disabled_functions
            (env.registry.get_definitions db.registered_functions)
          ++ specSourceCatalog request.enabled_mcp_tools chat.enabled_mcp_tools
            request.disabled_mcp_tools env.mcp.get_tools_definitions
       if cat.isEmpty then none else some cat) := by
  have h := prepareTools_fst_eq_spec request chat
    (env.registry.get_definitions db.registered_functions)
    env.mcp.get_tools_definitions
  simpa [requestOfContext, prepare_chat_context] using h

/-! ### C7 — external tool namespacing and eviction -/

theorem assocFind_isSome_iff {α : Type} (l : List (String × α)) (k : String) :
    (assocFind l k).isSome = true ↔ k ∈ l.map Prod.fst := by
  unfold assocFind
  rw [Option.isSome_map']
  rw [List.find?_isSome]
  constructor
  · rintro ⟨p, hp, hk⟩
    exact List.mem_map.2 ⟨p, hp, beq_iff_eq.1 hk⟩
  · intro h
    obtain ⟨p, hp, hk⟩ := List.mem_map.1 h
    exact ⟨p, hp, beq_iff_eq.2 hk⟩

theorem mem_map_fst_assocSet {α : Type} (l : List (String × α)) (k : String)
    (v : α) (k2 : String) :
    k2 ∈ (assocSet l k v).map Prod.fst ↔ (k2 = k ∨ k2 ∈ l.map Prod.fst) := by
  unfold assocSet
  by_cases h : l.any (fun p => p.1 == k) = true
  · rw [if_pos h]
    have hmap : (l.map (fun p => if p.1 == k then (k, v) else p)).map Prod.fst
        = l.map (fun p => if p.1 == k then k else p.1) := by
      rw [List.map_map]
      congr 1
      funext p
      by_cases hpk : p.1 = k <;> simp [hpk]
    rw [hmap]
    constructor
    · intro hmem
      obtain ⟨p, hp, hval⟩ := List.mem_map.1 hmem
      by_cases hpk : p.1 = k
      · left
        simp [hpk] at hval
        exact hval.symm
      · right
        simp [hpk] at hval
        exact List.mem_map.2 ⟨p, hp, hval⟩
    · rintro (rfl | hmem)
      · obtain ⟨p, hp, hpk⟩ := List.any_eq_true.1 h
        rw [beq_iff_eq] at hpk
        exact List.mem_map.2 ⟨p, hp, by simp [hpk]⟩
      · obtain ⟨p, hp, hval⟩ := List.mem_map.1 hmem
        by_cases hpk : p.1 = k
        · exact List.mem_map.2 ⟨p, hp, by simp [hpk]; exact hpk.symm.trans hval⟩
        · exact List.mem_map.2 ⟨p, hp, by simp [hpk]; exact hval⟩
  · rw [if_neg h]
    simp only [List.map_append, List.mem_append, List.map_cons, List.map_nil,
      List.mem_singleton]
    tauto

/-- C7 counterexample input: server `a` exposing tool `t`, server `a_b`
exposing tool `x`. -/
def mcpBothServers : MCPClient :=
  (MCPClient.connect_server
    (MCPClient.connect_server {} { name := "a", url := "u" }
      [{ name := "t", run := handlerOk }])
    { name := "a_b", url := "u" } [{ name := "x", run := handlerOk }])

/-- C7 counterexample: the handler `a_b_x` belongs to server `a_b`, not to
server `a`, yet disconnecting server `a` removes it (its namespaced name
starts with `a_`) — refuting "no handler of any other server is removed". -/
theorem disconnect_removes_other_servers_handler :
    ((mcpBothServers.disconnect_server "a").servers.map Prod.fst = ["a_b"])
    ∧ (mcpBothServers.get_tool_handler "a_b_x").isSome = true
    ∧ ((mcpBothServers.disconnect_server "a").get_tool_handler "a_b_x").isSome = false := by
  refine ⟨rfl, rfl, rfl⟩

theorem foldl_assocSet_mem_keys {α β : Type} (key : β → String) (val : β → α) :
    ∀ (ds : List β) (acc : List (String × α)) (k : String),
      (k ∈ acc.map Prod.fst ∨ ∃ d ∈ ds, k = key d) →
      k ∈ (ds.foldl (fun hs x => assocSet hs (key x) (val x)) acc).map Prod.fst := by
  intro ds
  induction ds with
  | nil =>
    intro acc k h
    simpa using h.resolve_right (by simp)
  | cons d rest ih =>
    intro acc k h
    simp only [List.foldl_cons]
    apply ih
    rcases h with hacc | ⟨d2, hd2, rfl⟩
    · exact Or.inl ((mem_map_fst_assocSet _ _ _ _).2 (Or.inr hacc))
    · rcases List.mem_cons.1 hd2 with rfl | hrest
      · exact Or.inl ((mem_map_fst_assocSet _ _ _ _).2 (Or.inl rfl))
      · exact Or.inr ⟨d2, hrest, rfl⟩

/-- C7 amended: every discovered tool of a connected server is registered
under the composite name `{server_name}_{tool_name}`; disconnecting a known
server drops its server entry and evicts exactly the handlers whose
namespaced name starts with `{server_name}_` — which may include handlers of
another server whose own name extends `{server_name}_`, so only handlers
outside that prefix are guaranteed to survive. -/
theorem mcp_namespacing_and_eviction (c : MCPClient) (server : MCPServer)
    (discovered : List MCPToolDescriptor) (d : MCPToolDescriptor)
    (hd : d ∈ discovered) (c2 : MCPClient) (server_name : String)
    (hs : c2.servers.any (fun p => p.1 == server_name) = true) :
    ((c.connect_server server discovered).get_tool_handler
        (server.name ++ "_" ++ d.name)).isSome = true
    ∧ (c2.disconnect_server server_name).servers =
        c2.servers.filter (fun p => p.1 != server_name)
    ∧ (c2.disconnect_server server_name).tool_handlers =
        c2.tool_handlers.filter (fun p =>
          !pyStartsWith p.1 (server_name ++ "_")) := by
  refine ⟨?_, ?_, ?_⟩
  · show (assocFind _ _).isSome = true
    rw [assocFind_isSome_iff]
    exact foldl_assocSet_mem_keys
      (fun x => server.name ++ "_" ++ x.name)
      (fun x => { server := server, name := x.name, description := x.description,
                  parameters := x.parameters, run := x.run })
      discovered c.tool_handlers (server.name ++ "_" ++ d.name)
      (Or.inr ⟨d, hd, rfl⟩)
  · unfold MCPClient.disconnect_server
    rw [if_pos hs]
  · unfold MCPClient.disconnect_server
    rw [if_pos hs]

/-- A one-server client used to witness the amended C7 theorem. -/
def mcpWeather : MCPClient :=
  MCPClient.connect_server {} { name := "weather", url := "u" }
    [{ name := "forecast", run := handlerOk }]

theorem mcp_namespacing_and_eviction_witness :
    ((MCPClient.connect_server {} { name := "weather", url := "u" }
        [{ name := "forecast", run := handlerOk }]).get_tool_handler
        ("weather" ++ "_" ++ "forecast")).isSome = true
    ∧ (mcpWeather.disconnect_server "weather").servers =
        mcpWeather.servers.filter (fun p => p.1 != "weather")
    ∧ (mcpWeather.disconnect_server "weather").tool_handlers =
        mcpWeather.tool_handlers.filter (fun p =>
          !pyStartsWith p.1 ("weather" ++ "_")) :=
  mcp_namespacing_and_eviction {} { name := "weather", url := "u" }
    [{ name := "forecast", run := handlerOk }]
    { name := "forecast", run := handlerOk } (by simp)
    mcpWeather "weather" (by decide)

/-! ### C6 — registration validation -/

/-- C6 counterexample input: source whose namespace exposes two public
callables. -/
def reqTwoPublic : RegisterFunctionRequest :=
  { name := "two_tools", description := "d", parameters := [],
    codeExec := .ok [("f", some handlerOk), ("g", some handlerOk)] }

/-- C6 counterexample: the supplied code exposes two public callables, not
exactly one, yet registration succeeds (the endpoint only requires that some
public callable exists and binds the first) — refuting "accepts supplied
source code only if it … exposes exactly one public callable". -/
theorem register_accepts_two_public_callables :
    (register_function reqTwoPublic []).isOk = true
    ∧ (reqTwoPublic.codeExec.toOption.getD []).countP isPublicCallable = 2 :=
  ⟨rfl, rfl⟩

/-- C6 amended: registration accepts the supplied source iff it executes
successfully and exposes at least one public (non-underscore-prefixed)
callable, the first of which becomes the stored handler source; code raising
on execution, or exposing zero public callables, is rejected with a
validation error, leaves the durable table unchanged (the error result
carries no new row), and — when the name was fresh — the name does not
appear in a `get_definitions()` read. -/
theorem register_function_validation (request : RegisterFunctionRequest)
    (dbFuncs : List RegisteredFunctionRec) (reg : FunctionRegistry) :
    (∀ e, request.codeExec = .error e →
        register_function request dbFuncs = .error (400, e.str))
    ∧ (∀ ns, request.codeExec = .ok ns → ns.find? isPublicCallable = none →
        register_function request dbFuncs =
          .error (400, "No callable function found in the provided code"))
    ∧ (∀ ns entry, request.codeExec = .ok ns →
        ns.find? isPublicCallable = some entry →
        dbFuncs.all (fun f => f.name != request.name) = true →
        ∃ row, register_function request dbFuncs = .ok (dbFuncs ++ [row], row)
          ∧ row.name = request.name ∧ row.codeExec = request.codeExec
          ∧ row.is_active = true)
    ∧ ((∀ p ∈ reg.definitions, p.2.function.name ≠ request.name) →
        (∀ f ∈ dbFuncs, f.name ≠ request.name) →
        request.name ∉ (reg.get_definitions dbFuncs).map (fun t => t.function.name)) := by
  refine ⟨?_, ?_, ?_, ?_⟩
  · intro e he
    simp [register_function, he]
  · intro ns hns hfind
    simp [register_function, hns, hfind]
  · intro ns entry hns hfind hfresh
    have hany : dbFuncs.any (fun f => f.name == request.name) = false := by
      rw [List.any_eq_false]
      intro f hf
      have := List.all_eq_true.1 hfresh f hf
      simpa using this
    refine ⟨{ name := request.name, description := request.description,
              parameters := buildParametersSchema request.parameters,
              codeExec := request.codeExec, is_active := true }, ?_, rfl, rfl, rfl⟩
    simp [register_function, hns, hfind, hany]
  · intro hbuiltin hdb hmem
    unfold FunctionRegistry.get_definitions at hmem
    rw [List.map_append, List.mem_append] at hmem
    rcases hmem with hmem | hmem
    · rw [List.map_map, List.mem_map] at hmem
      obtain ⟨p, hp, hname⟩ := hmem
      exact hbuiltin p hp hname
    · rw [List.map_map, List.mem_map] at hmem
      obtain ⟨f, hf, hname⟩ := hmem
      exact hdb f (List.mem_filter.1 hf).1 hname

/-- C6 witness input: a namespace whose only public callable follows a
private symbol. -/
def reqZeroPublic : RegisterFunctionRequest :=
  { name := "zero_tools", description := "d", parameters := [],
    codeExec := .ok [("_helper", some handlerOk), ("data", none)] }

theorem register_function_validation_witness :
    register_function reqZeroPublic [] =
        .error (400, "No callable function found in the provided code")
    ∧ "zero_tools" ∉
        (FunctionRegistry.get_definitions {} []).map (fun t => t.function.name) :=
  ⟨(register_function_validation reqZeroPublic [] {}).2.1
      [("_helper", some handlerOk), ("data", none)] rfl rfl,
   (register_function_validation reqZeroPublic [] {}).2.2.2
      (by simp [FunctionRegistry.definitions]) (by simp)⟩

/-! ### C3 — tool execution failures become structured results -/

theorem execToolLoop_ok (env : Env) (dbFuncs : List RegisteredFunctionRec)
    (chat_id : Nat) :
    ∀ (tcs : List ToolCall) (reg : FunctionRegistry),
      (∀ tc ∈ tcs, (env.parseJson (tc.function_arguments.getD "\x7b\x7d")).isOk = true) →
      (execToolLoop env dbFuncs chat_id reg tcs).2.2.2 = none
      ∧ (execToolLoop env dbFuncs chat_id reg tcs).2.1.map
          (fun m => (m.chat_id, m.role, m.tool_call_id, m.name)) =
        tcs.map (fun tc => (chat_id, "tool", some tc.id, some tc.function_name))
      ∧ (execToolLoop env dbFuncs chat_id reg tcs).2.2.1.map Prod.fst =
        tcs.map (fun tc => tc.function_name) := by
  intro tcs
  induction tcs with
  | nil =>
    intro reg h
    exact ⟨rfl, rfl, rfl⟩
  | cons tc rest ih =>
    intro reg h
    have hp := h tc (List.mem_cons_self _ _)
    obtain ⟨args, hargs⟩ :
        ∃ a, env.parseJson (tc.function_arguments.getD "\x7b\x7d") = .ok a := by
      cases he : env.parseJson (tc.function_arguments.getD "\x7b\x7d") with
      | error e => rw [he] at hp; simp [Except.isOk, Except.toBool] at hp
      | ok a => exact ⟨a, rfl⟩
    obtain ⟨h1, h2, h3⟩ :=
      ih (executeFunction reg dbFuncs env.mcp tc.function_name args).1
        (fun tc2 ht => h tc2 (List.mem_cons_of_mem _ ht))
    refine ⟨?_, ?_, ?_⟩ <;>
      simp [execToolLoop, hargs, h1, h2, h3]

/-- The provider of the C3 counterexample: the first call requests the tool
`ghost` (registered nowhere); once a tool message exists in the history it
answers with plain text. -/
def provGhost : Provider :=
  { name := "mock", default_model := "m",
    complete := fun req =>
      if req.messages.any (fun m => m.role == "tool") then
        .ok { content := some "done", model := "m", provider := "mock" }
      else
        .ok { content := some "",
              tool_calls := some [{ id := "call_1", function_name := "ghost",
                                    function_arguments := some "\x7b\x7d" }],
              model := "m", provider := "mock" },
    streamChunks := fun _ => .ok [] }

/-- An environment with no registered tools at all and the `ghost`-requesting
provider. -/
def envGhost : Env :=
  { provider := provGhost, registry := {}, mcp := {},
    parseJson := fun _ => .ok [], default_model := some "m" }

/-- The chat row of the shared one-chat test database. -/
def chatOne : ChatRec := { id := 1, subtenant_id := 1 }

/-- A database holding exactly `chatOne`. -/
def dbChatOne : DB := { chats := [chatOne] }

/-- C3 counterexample: the model requests the tool `ghost`, which is found
neither in the registry nor in the MCP gateway; the round is not aborted —
it persists a tool message whose content is the structured payload
`{"error": "Function 'ghost' not found"}`, performs the follow-up model call
and completes successfully — refuting "… in which case the round is aborted
rather than continued with an error payload". -/
theorem not_found_tool_continues_round :
    (sendMessage envGhost 1 reqBasic dbChatOne).db.messages.map
        (fun m => (m.role, m.content)) =
      [("user", some "hi"), ("assistant", some ""),
       ("tool", some (jsonError (functionNotFoundMsg "ghost"))),
       ("assistant", some "done")]
    ∧ (sendMessage envGhost 1 reqBasic dbChatOne).result =
        .ok { chat_id := 1, role := "assistant", content := some "done",
              enabled_functions := some [], enabled_mcp_tools := some [] }
    ∧ (sendMessage envGhost 1 reqBasic dbChatOne).provider_requests.length = 2 :=
  ⟨rfl, rfl, rfl⟩

/-- C3 amended: a non-`ValueError` exception raised inside a registered tool
handler is captured by the outer `except` and converted into the structured
error result `{"error": str(e)}`; a handler-raised `ValueError` is swallowed
by the inner `except ValueError` exactly like the registry's not-found
signal, so the call falls through to the MCP lookup and (with no MCP handler
of that name) the persisted payload is the structured *not-found* error, not
the handler's own message; a name resolving nowhere in the registry raises
the distinguished `ValueError`, the MCP gateway is consulted, and failing
there too the structured not-found result is produced; with parsable
arguments the tool round itself never aborts — it emits one tool message per
call regardless of execution outcomes. -/
theorem tool_failures_become_results (reg : FunctionRegistry)
    (dbFuncs : List RegisteredFunctionRec) (mcp : MCPClient) (name : String)
    (args : Args) (env : Env) (chat_id : Nat) :
    (∀ h e, reg.get_function name = some h → h args = .error (.other e) →
        executeFunction reg dbFuncs mcp name args = (reg, jsonError e))
    ∧ (∀ h v, reg.get_function name = some h →
        h args = .error (.valueError v) →
        mcp.get_tool_handler name = none →
        executeFunction reg dbFuncs mcp name args =
          (reg, jsonError (functionNotFoundMsg name)))
    ∧ (∀ reg2, reg.get_function name = none →
        reg.load_db_function dbFuncs name = .ok reg2 →
        reg2.get_function name = none →
        reg.execute dbFuncs name args =
            (reg2, .error (.valueError (functionNotFoundMsg name)))
          ∧ (mcp.get_tool_handler name = none →
              executeFunction reg dbFuncs mcp name args =
                (reg2, jsonError (functionNotFoundMsg name))))
    ∧ (∀ (tcs : List ToolCall) (reg0 : FunctionRegistry),
        (∀ tc ∈ tcs, (env.parseJson (tc.function_arguments.getD "\x7b\x7d")).isOk = true) →
        (execToolLoop env dbFuncs chat_id reg0 tcs).2.2.2 = none
        ∧ (execToolLoop env dbFuncs chat_id reg0 tcs).2.1.length = tcs.length) := by
  refine ⟨?_, ?_, ?_, ?_⟩
  · intro h e hget hrun
    simp [executeFunction, FunctionRegistry.execute, hget, hrun]
  · intro h v hget hrun hmcp
    simp [executeFunction, FunctionRegistry.execute, hget, hrun, hmcp]
  · intro reg2 hget hload hget2
    have hexec : reg.execute dbFuncs name args =
        (reg2, .error (.valueError (functionNotFoundMsg name))) := by
      simp [FunctionRegistry.execute, hget, hload, hget2, functionNotFoundMsg]
    refine ⟨hexec, ?_⟩
    intro hmcp
    simp [executeFunction, hexec, hmcp]
  · intro tcs reg0 hparse
    obtain ⟨h1, h2, h3⟩ := execToolLoop_ok env dbFuncs chat_id tcs reg0 hparse
    refine ⟨h1, ?_⟩
    have := congrArg List.length h2
    simpa using this

/-- A registry holding one built-in whose handler raises a plain (non-`ValueError`)
exception, used to witness the amended C3 theorem. -/
def regRaising : FunctionRegistry :=
  { functions := [("bad_tool", fun _ => .error (.other "division by zero"))] }

/-- A registry holding one built-in whose handler raises a `ValueError` of its
own, used to witness the fall-through behaviour. -/
def regRaisingVE : FunctionRegistry :=
  { functions := [("vague_tool", fun _ => .error (.valueError "bad value"))] }

theorem tool_failures_become_results_witness :
    executeFunction regRaising [] {} "bad_tool" [] =
        (regRaising, jsonError "division by zero")
    ∧ executeFunction regRaisingVE [] {} "vague_tool" [] =
        (regRaisingVE, jsonError (functionNotFoundMsg "vague_tool"))
    ∧ ({} : FunctionRegistry).execute [] "ghost" [] =
        ({}, .error (.valueError (functionNotFoundMsg "ghost")))
    ∧ executeFunction {} [] {} "ghost" [] =
        ({}, jsonError (functionNotFoundMsg "ghost"))
    ∧ (execToolLoop envGhost [] 1 {}
        [{ id := "call_1", function_name := "ghost" }]).2.2.2 = none :=
  ⟨(tool_failures_become_results regRaising [] {} "bad_tool" [] envGhost 1).1
      _ "division by zero" rfl rfl,
   (tool_failures_become_results regRaisingVE [] {} "vague_tool" [] envGhost 1).2.1
      _ "bad value" rfl rfl rfl,
   ((tool_failures_become_results {} [] {} "ghost" [] envGhost 1).2.2.1
      {} rfl rfl rfl).1,
   ((tool_failures_become_results {} [] {} "ghost" [] envGhost 1).2.2.1
      {} rfl rfl rfl).2 rfl,
   ((tool_failures_become_results {} [] {} "ghost" [] envGhost 1).2.2.2
      [{ id := "call_1", function_name := "ghost" }] {} (by decide)).1⟩

/-! ### C4 — provider failure semantics -/

/-- C4: when the provider's first `complete` call raises, `send_message`
writes exactly one RequestLog row carrying status 500 and the error text,
re-raises the error, and persists nothing beyond the messages already
committed before the failure point — the message table afterwards is the
prior table plus only the already-committed user message. -/
theorem provider_failure_logs_500 (env : Env) (chat_id : Nat)
    (request : MessageSendRequest) (db : DB) (chat : ChatRec) (e : String)
    (hchat : db.chats.find? (fun c => c.id == chat_id) = some chat)
    (h1 : env.provider.complete (requestOfContext env
        (prepare_chat_context env chat_id request db chat) request false) =
      .error e) :
    (sendMessage env chat_id request db).result = .error (500, e)
    ∧ (sendMessage env chat_id request db).db.messages =
        db.messages ++ [(prepare_chat_context env chat_id request db chat).user_message]
    ∧ (sendMessage env chat_id request db).db.request_logs =
        db.request_logs ++
          [{ logBase env chat_id (pyOrStr request.model env.default_model) with
               status_code := some 500, error := some e }] := by
  unfold sendMessage
  rw [hchat]
  unfold sendMessageWithChat
  rw [show requestOfContext env (prepare_chat_context env chat_id request db chat)
        request false =
      { messages := (prepare_chat_context env chat_id request db chat).llm_messages,
        tools := (prepare_chat_context env chat_id request db chat).available_tools,
        tool_choice := request.tool_choice, stream := false,
        model := pyOrStr request.model env.default_model } from rfl] at h1
  simp only [requestOfContext]
  rw [h1]
  refine ⟨rfl, ?_, rfl⟩
  show ((prepare_chat_context env chat_id request db chat).db).messages = _
  simp [prepare_chat_context]

theorem provider_failure_logs_500_witness :
    (sendMessage envFailing 1 reqBasic dbChatOne).result = .error (500, "boom")
    ∧ (sendMessage envFailing 1 reqBasic dbChatOne).db.messages =
        dbChatOne.messages ++
          [(prepare_chat_context envFailing 1 reqBasic dbChatOne chatOne).user_message]
    ∧ (sendMessage envFailing 1 reqBasic dbChatOne).db.request_logs =
        dbChatOne.request_logs ++
          [{ logBase envFailing 1 (pyOrStr reqBasic.model envFailing.default_model) with
               status_code := some 500, error := some "boom" }] :=
  provider_failure_logs_500 envFailing 1 reqBasic dbChatOne chatOne "boom" rfl rfl

/-! ### C5 — the streaming path executes no tools -/

/-- C5: `stream_message` performs the same chat lookup and context assembly
(the shared `prepare_chat_context`, so the ingested user message is
identical), issues exactly one provider request — equal to the synchronous
first request except for the stream flag — forwards the chunks as yielded,
executes no tool call, and persists exactly one assistant message holding the
accumulated streamed text, with no tool-role message and no second model
call regardless of what the streamed response resolved to. -/
theorem stream_executes_no_tools (env : Env) (chat_id : Nat)
    (request : MessageSendRequest) (db : DB) (chat : ChatRec)
    (chunks : List String)
    (hchat : db.chats.find? (fun c => c.id == chat_id) = some chat)
    (hstream : env.provider.streamChunks (requestOfContext env
        (prepare_chat_context env chat_id request db chat) request true) =
      .ok chunks) :
    (streamMessage env chat_id request db).db.messages =
        db.messages ++
          [(prepare_chat_context env chat_id request db chat).user_message,
           { chat_id := chat_id, role := "assistant",
             content := some (String.join chunks),
             enabled_functions :=
               some (prepare_chat_context env chat_id request db chat).enabled_functions,
             enabled_mcp_tools :=
               some (prepare_chat_context env chat_id request db chat).enabled_mcp_tools }]
    ∧ (streamMessage env chat_id request db).executed_calls = []
    ∧ (streamMessage env chat_id request db).provider_requests =
        [requestOfContext env (prepare_chat_context env chat_id request db chat)
          request true]
    ∧ requestOfContext env (prepare_chat_context env chat_id request db chat)
          request true =
        { requestOfContext env (prepare_chat_context env chat_id request db chat)
            request false with stream := true }
    ∧ (streamMessage env chat_id request db).streamed = chunks
    ∧ (streamMessage env chat_id request db).result =
        .ok { chat_id := chat_id, role := "assistant",
              content := some (String.join chunks),
              enabled_functions :=
                some (prepare_chat_context env chat_id request db chat).enabled_functions,
              enabled_mcp_tools :=
                some (prepare_chat_context env chat_id request db chat).enabled_mcp_tools } := by
  unfold streamMessage
  rw [hchat]
  simp only []
  rw [hstream]
  refine ⟨?_, rfl, rfl, rfl, rfl, rfl⟩
  show ((prepare_chat_context env chat_id request db chat).db).messages ++ _ = _
  simp [prepare_chat_context]

/-- A provider that streams two fixed chunks. -/
def provStreaming : Provider :=
  { name := "mock", default_model := "m",
    complete := fun _ => .error "no sync",
    streamChunks := fun _ => .ok ["Hel", "lo"] }

/-- An environment around `provStreaming` with no tools. -/
def envStreaming : Env :=
  { provider := provStreaming, registry := {}, mcp := {},
    parseJson := fun _ => .ok [], default_model := some "m" }

theorem stream_executes_no_tools_witness :
    (streamMessage envStreaming 1 reqBasic dbChatOne).db.messages =
        dbChatOne.messages ++
          [(prepare_chat_context envStreaming 1 reqBasic dbChatOne chatOne).user_message,
           { chat_id := 1, role := "assistant",
             content := some (String.join ["Hel", "lo"]),
             enabled_functions :=
               some (prepare_chat_context envStreaming 1 reqBasic dbChatOne chatOne).enabled_functions,
             enabled_mcp_tools :=
               some (prepare_chat_context envStreaming 1 reqBasic dbChatOne chatOne).enabled_mcp_tools }]
    ∧ (streamMessage envStreaming 1 reqBasic dbChatOne).executed_calls = []
    ∧ (streamMessage envStreaming 1 reqBasic dbChatOne).provider_requests =
        [requestOfContext envStreaming
          (prepare_chat_context envStreaming 1 reqBasic dbChatOne chatOne)
          reqBasic true]
    ∧ requestOfContext envStreaming
          (prepare_chat_context envStreaming 1 reqBasic dbChatOne chatOne)
          reqBasic true =
        { requestOfContext envStreaming
            (prepare_chat_context envStreaming 1 reqBasic dbChatOne chatOne)
            reqBasic false with stream := true }
    ∧ (streamMessage envStreaming 1 reqBasic dbChatOne).streamed = ["Hel", "lo"]
    ∧ (streamMessage envStreaming 1 reqBasic dbChatOne).result =
        .ok { chat_id := 1, role := "assistant",
              content := some (String.join ["Hel", "lo"]),
              enabled_functions :=
                some (prepare_chat_context envStreaming 1 reqBasic dbChatOne chatOne).enabled_functions,
              enabled_mcp_tools :=
                some (prepare_chat_context envStreaming 1 reqBasic dbChatOne chatOne).enabled_mcp_tools } :=
  stream_executes_no_tools envStreaming 1 reqBasic dbChatOne chatOne
    ["Hel", "lo"] rfl rfl

/-! ### C1 — the synchronous tool-call round -/

theorem prepare_chat_context_db (env : Env) (chat_id : Nat)
    (request : MessageSendRequest) (db : DB) (chat : ChatRec) :
    (prepare_chat_context env chat_id request db chat).db =
      { db with messages := db.messages ++
          [(prepare_chat_context env chat_id request db chat).user_message] } := rfl

/-- C1: when the first response of a synchronous `send_message` call carries
tool calls (and the round's operations succeed), the persisted history gains,
in order: the user message, one assistant message holding the raw tool-call
list, one `tool`-role message per requested call — in the order the calls
were issued, each linked by `tool_call_id` to that call's id — and the second
response as the final assistant message; exactly two provider requests are
issued, with the same tool schema, and only the first response's calls are
executed (per call, `_execute_function` consults the Tool Registry before the
MCP gateway) — nothing from the second response is executed. -/
theorem send_message_tool_round (env : Env) (chat_id : Nat)
    (request : MessageSendRequest) (db : DB) (chat : ChatRec)
    (resp1 resp2 : LLMResponse) (tc0 : ToolCall) (tcs : List ToolCall)
    (c2 : String)
    (hchat : db.chats.find? (fun c => c.id == chat_id) = some chat)
    (h1 : env.provider.complete (requestOfContext env
        (prepare_chat_context env chat_id request db chat) request false) =
      .ok resp1)
    (htc : resp1.tool_calls = some (tc0 :: tcs))
    (hparse : ∀ tc ∈ tc0 :: tcs,
      (env.parseJson (tc.function_arguments.getD "\x7b\x7d")).isOk = true)
    (h2 : env.provider.complete
        (followupRequest env chat_id request db chat resp1) = .ok resp2)
    (hc2 : resp2.content = some c2) :
    ∃ toolMsgs : List Msg,
      (sendMessage env chat_id request db).db.messages =
        db.messages ++
          [(prepare_chat_context env chat_id request db chat).user_message,
           assistantToolMsg chat_id resp1
             (prepare_chat_context env chat_id request db chat)]
          ++ toolMsgs ++
          [{ chat_id := chat_id, role := resp2.role, content := resp2.content,
             enabled_functions := some
               (prepare_chat_context env chat_id request db chat).enabled_functions,
             enabled_mcp_tools := some
               (prepare_chat_context env chat_id request db chat).enabled_mcp_tools }]
      ∧ (assistantToolMsg chat_id resp1
            (prepare_chat_context env chat_id request db chat)).tool_calls =
          some (tc0 :: tcs)
      ∧ toolMsgs.map (fun m => (m.chat_id, m.role, m.tool_call_id, m.name)) =
          (tc0 :: tcs).map (fun tc =>
            (chat_id, "tool", some tc.id, some tc.function_name))
      ∧ (sendMessage env chat_id request db).provider_requests =
          [requestOfContext env (prepare_chat_context env chat_id request db chat)
             request false,
           followupRequest env chat_id request db chat resp1]
      ∧ (followupRequest env chat_id request db chat resp1).tools =
          (requestOfContext env (prepare_chat_context env chat_id request db chat)
             request false).tools
      ∧ (sendMessage env chat_id request db).executed_calls.map Prod.fst =
          (tc0 :: tcs).map (fun tc => tc.function_name)
      ∧ (sendMessage env chat_id request db).result =
          .ok { chat_id := chat_id, role := resp2.role, content := resp2.content,
                enabled_functions := some
                  (prepare_chat_context env chat_id request db chat).enabled_functions,
                enabled_mcp_tools := some
                  (prepare_chat_context env chat_id request db chat).enabled_mcp_tools } := by
  obtain ⟨herr, hmsgs, hexec⟩ :=
    execToolLoop_ok env db.registered_functions chat_id (tc0 :: tcs)
      env.registry hparse
  have hsend : sendMessage env chat_id request db =
      sendMessageToolBranch env chat_id request db chat
        (prepare_chat_context env chat_id request db chat)
        (requestOfContext env (prepare_chat_context env chat_id request db chat)
          request false) resp1 := by
    unfold sendMessage
    rw [hchat]
    simp only [sendMessageWithChat]
    rw [h1]
    simp [htc, truthyList]
  rw [hsend]
  unfold sendMessageToolBranch
  rw [htc]
  simp only [Option.getD_some]
  rw [herr]
  simp only []
  rw [h2]
  simp only []
  rw [hc2]
  refine ⟨(execToolLoop env db.registered_functions chat_id env.registry
    (tc0 :: tcs)).2.1, ?_, ?_, hmsgs, rfl, rfl, hexec, ?_⟩
  · rw [prepare_chat_context_db]
    simp [hc2, List.append_assoc]
  · simp [assistantToolMsg, htc]
  · rfl

/-- The built-in `echo` tool definition used by the C1 witness. -/
def toolDefEcho : ToolDef :=
  { function := { name := "echo", description := "echoes" } }

/-- A registry holding the built-in `echo` tool. -/
def regEcho : FunctionRegistry :=
  { functions := [("echo", handlerOk)],
    definitions := [("echo", toolDefEcho)] }

/-- The tool call issued by the witness provider's first response. -/
def tcEcho : ToolCall :=
  { id := "call_1", function_name := "echo", function_arguments := some "\x7b\x7d" }

/-- First witness response: requests the `echo` tool. -/
def respTool : LLMResponse :=
  { content := some "", tool_calls := some [tcEcho], model := "m", provider := "mock" }

/-- Second witness response: plain text. -/
def respDone : LLMResponse :=
  { content := some "done", model := "m", provider := "mock" }

/-- A provider that requests `echo` until a tool message exists, then
answers with text. -/
def provToolThenText : Provider :=
  { name := "mock", default_model := "m",
    complete := fun req =>
      if req.messages.any (fun m => m.role == "tool") then .ok respDone
      else .ok respTool,
    streamChunks := fun _ => .ok [] }

/-- The environment of the C1 witness. -/
def envEcho : Env :=
  { provider := provToolThenText, registry := regEcho, mcp := {},
    parseJson := fun _ => .ok [], default_model := some "m" }

theorem send_message_tool_round_witness :
    ∃ toolMsgs : List Msg,
      (sendMessage envEcho 1 reqBasic dbChatOne).db.messages =
        dbChatOne.messages ++
          [(prepare_chat_context envEcho 1 reqBasic dbChatOne chatOne).user_message,
           assistantToolMsg 1 respTool
             (prepare_chat_context envEcho 1 reqBasic dbChatOne chatOne)]
          ++ toolMsgs ++
          [{ chat_id := 1, role := respDone.role, content := respDone.content,
             enabled_functions := some
               (prepare_chat_context envEcho 1 reqBasic dbChatOne chatOne).enabled_functions,
             enabled_mcp_tools := some
               (prepare_chat_context envEcho 1 reqBasic dbChatOne chatOne).enabled_mcp_tools }]
      ∧ (assistantToolMsg 1 respTool
            (prepare_chat_context envEcho 1 reqBasic dbChatOne chatOne)).tool_calls =
          some (tcEcho :: [])
      ∧ toolMsgs.map (fun m => (m.chat_id, m.role, m.tool_call_id, m.name)) =
          (tcEcho :: []).map (fun tc =>
            (1, "tool", some tc.id, some tc.function_name))
      ∧ (sendMessage envEcho 1 reqBasic dbChatOne).provider_requests =
          [requestOfContext envEcho
             (prepare_chat_context envEcho 1 reqBasic dbChatOne chatOne)
             reqBasic false,
           followupRequest envEcho 1 reqBasic dbChatOne chatOne respTool]
      ∧ (followupRequest envEcho 1 reqBasic dbChatOne chatOne respTool).tools =
          (requestOfContext envEcho
             (prepare_chat_context envEcho 1 reqBasic dbChatOne chatOne)
             reqBasic false).tools
      ∧ (sendMessage envEcho 1 reqBasic dbChatOne).executed_calls.map Prod.fst =
          (tcEcho :: []).map (fun tc => tc.function_name)
      ∧ (sendMessage envEcho 1 reqBasic dbChatOne).result =
          .ok { chat_id := 1, role := respDone.role, content := respDone.content,
                enabled_functions := some
                  (prepare_chat_context envEcho 1 reqBasic dbChatOne chatOne).enabled_functions,
                enabled_mcp_tools := some
                  (prepare_chat_context envEcho 1 reqBasic dbChatOne chatOne).enabled_mcp_tools } :=
  send_message_tool_round envEcho 1 reqBasic dbChatOne chatOne respTool respDone
    tcEcho [] "done" rfl rfl rfl (by decide) rfl rfl

/-! ### C10 — assistant presets at chat creation -/

/-- The stored-default rule exactly as claim C10 words it: the assistant's
list is copied whenever the creation request supplies no list or an empty
list for the field; a non-empty request list is kept unchanged. -/
def claimedChatDefault (reqList asstList : Option (List String)) :
    Option (List String) :=
  match reqList with
  | none => asstList
  | some [] => asstList
  | some l => some l

/-- C10 counterexample input: request with no enabled-functions list and an
empty-string system message. -/
def reqChatC10 : ChatCreate :=
  { system_message := some "", enabled_functions := none,
    assistant_id := some 7 }

/-- C10 counterexample assistant: empty enabled-functions list, non-empty
system prompt. -/
def asstC10 : AssistantRec :=
  { id := 7, name := "a", system_prompt := some "P",
    enabled_functions := some [] }

/-- C10 counterexample: the request supplies no enabled-functions list, so
the claim says the assistant's list (here `[]`) is copied as the stored
default, but the code copies only a *non-empty* assistant list and stores
`None`; and the request supplies a system message (the empty string), so by
the claim's "only when the request supplies no system message of its own" no
assistant seeding should occur, yet the code falls through Python truthiness
and seeds the assistant's prompt. -/
theorem create_chat_claim_counterexample :
    (create_chat 5 reqChatC10 [5] [asstC10] 9).toOption.map
        (fun r => r.chat.enabled_functions) = some none
    ∧ claimedChatDefault reqChatC10.enabled_functions asstC10.enabled_functions =
        some []
    ∧ (create_chat 5 reqChatC10 [5] [asstC10] 9).toOption.map
        (fun r => r.system_messages) =
      some [{ chat_id := 9, role := "system", content := some "P" }]
    ∧ reqChatC10.system_message = some "" :=
  ⟨rfl, rfl, rfl, rfl⟩

/-- A Python-truthy string: `None` and `""` collapse to `none`. -/
def nonEmptyStr : Option String → Option String
  | some s => if s.isEmpty then none else some s
  | none => none

/-- C10 amended stored-default rule: the assistant's list is copied exactly
when the request supplies no list or an empty list *and* the assistant's list
is present and non-empty; otherwise the request's value is kept. -/
def amendedChatDefault (reqList asstList : Option (List String)) :
    Option (List String) :=
  match reqList, asstList with
  | none, some (x :: xs) => some (x :: xs)
  | some [], some (x :: xs) => some (x :: xs)
  | _, _ => reqList

/-- C10 amended seeding rule: the seeded system content is the request's
system message when that is non-empty, else the assistant's prompt when that
is non-empty, else nothing. -/
def amendedSystemContent (reqMsg asstPrompt : Option String) : Option String :=
  match nonEmptyStr reqMsg with
  | some s => some s
  | none => nonEmptyStr asstPrompt

theorem overlay_eq_amended (reqList asstList : Option (List String)) :
    (if !truthyList reqList && truthyList asstList then asstList else reqList)
      = amendedChatDefault reqList asstList := by
  rcases reqList with _ | (_ | ⟨x, xs⟩) <;>
    rcases asstList with _ | (_ | ⟨y, ys⟩) <;> rfl

theorem system_seed_eq (reqMsg asstPrompt : Option String) (newChatId : Nat) :
    (if truthyStr (if truthyStr reqMsg then reqMsg else asstPrompt) then
       [({ chat_id := newChatId, role := "system",
           content := if truthyStr reqMsg then reqMsg else asstPrompt } : Msg)]
     else ([] : List Msg)) =
    (match amendedSystemContent reqMsg asstPrompt with
     | some s => [{ chat_id := newChatId, role := "system", content := some s }]
     | none => []) := by
  rcases reqMsg with _ | s
  · rcases asstPrompt with _ | t
    · rfl
    · by_cases ht : t.isEmpty <;>
        simp [truthyStr, amendedSystemContent, nonEmptyStr, ht]
  · by_cases hs : s.isEmpty
    · rcases asstPrompt with _ | t
      · simp [truthyStr, amendedSystemContent, nonEmptyStr, hs]
      · by_cases ht : t.isEmpty <;>
          simp [truthyStr, amendedSystemContent, nonEmptyStr, hs, ht]
    · simp [truthyStr, amendedSystemContent, nonEmptyStr, hs]

/-- C10 amended: when a chat is created with an accessible active assistant
preset, each stored default list is the assistant's list exactly when the
request's list is absent or empty and the assistant's is non-empty, and
otherwise the request's value; the assistant's system prompt seeds a system
message exactly when the request's system message is absent or empty and the
prompt is non-empty (the request's own non-empty system message wins). -/
theorem create_chat_assistant_presets (subtenant_id : Nat) (req : ChatCreate)
    (subtenants : List Nat) (assistants : List AssistantRec) (newChatId : Nat)
    (aid : Nat) (a : AssistantRec)
    (hsub : subtenants.contains subtenant_id = true)
    (haid : req.assistant_id = some aid)
    (hfind : assistants.find? (fun x => x.id == aid && x.is_active) = some a)
    (hacc : a.subtenant_id = none ∨ a.subtenant_id = some subtenant_id) :
    ∃ r, create_chat subtenant_id req subtenants assistants newChatId = .ok r
      ∧ r.chat.enabled_functions =
          amendedChatDefault req.enabled_functions a.enabled_functions
      ∧ r.chat.enabled_mcp_tools =
          amendedChatDefault req.enabled_mcp_tools a.enabled_mcp_tools
      ∧ r.system_messages =
          (match amendedSystemContent req.system_message a.system_prompt with
           | some s => [{ chat_id := newChatId, role := "system", content := some s }]
           | none => [])
      ∧ r.chat.title = req.title
      ∧ r.chat.assistant_id = req.assistant_id := by
  have hok : create_chat subtenant_id req subtenants assistants newChatId =
      .ok (buildChat subtenant_id req (some a) newChatId) := by
    unfold create_chat
    rw [hsub]
    simp only [Bool.not_true, Bool.false_eq_true, if_false]
    rw [haid]
    simp only []
    rw [hfind]
    have : (a.subtenant_id.isSome && a.subtenant_id != some subtenant_id) = false := by
      rcases hacc with h | h <;> simp [h]
    simp [this]
  have hbuilt : (buildChat subtenant_id req (some a) newChatId).chat =
      { id := newChatId, subtenant_id := subtenant_id,
        assistant_id := req.assistant_id, title := req.title,
        enabled_functions :=
          if !truthyList req.enabled_functions && truthyList a.enabled_functions
          then a.enabled_functions else req.enabled_functions,
        enabled_mcp_tools :=
          if !truthyList req.enabled_mcp_tools && truthyList a.enabled_mcp_tools
          then a.enabled_mcp_tools else req.enabled_mcp_tools } := by
    unfold buildChat
    by_cases h1 : (!truthyList req.enabled_functions &&
        truthyList a.enabled_functions) = true <;>
      by_cases h2 : (!truthyList req.enabled_mcp_tools &&
          truthyList a.enabled_mcp_tools) = true <;>
        simp [h1, h2]
  refine ⟨buildChat subtenant_id req (some a) newChatId, hok, ?_, ?_, ?_, ?_, ?_⟩
  · rw [hbuilt]
    exact overlay_eq_amended _ _
  · rw [hbuilt]
    exact overlay_eq_amended _ _
  · exact system_seed_eq req.system_message a.system_prompt newChatId
  · rw [hbuilt]
  · rw [hbuilt]

/-- A C10 witness assistant with non-empty presets. -/
def asstPresets : AssistantRec :=
  { id := 7, name := "helper", system_prompt := some "P",
    enabled_functions := some ["A", "B"], enabled_mcp_tools := some ["M"] }

/-- A C10 witness request overriding the functions list only. -/
def reqChatOverride : ChatCreate :=
  { title := some "T", assistant_id := some 7,
    enabled_functions := some ["C"] }

theorem create_chat_assistant_presets_witness :
    ∃ r, create_chat 5 reqChatOverride [5] [asstPresets] 9 = .ok r
      ∧ r.chat.enabled_functions =
          amendedChatDefault reqChatOverride.enabled_functions
            asstPresets.enabled_functions
      ∧ r.chat.enabled_mcp_tools =
          amendedChatDefault reqChatOverride.enabled_mcp_tools
            asstPresets.enabled_mcp_tools
      ∧ r.system_messages =
          (match amendedSystemContent reqChatOverride.system_message
              asstPresets.system_prompt with
           | some s => [{ chat_id := 9, role := "system", content := some s }]
           | none => [])
      ∧ r.chat.title = reqChatOverride.title
      ∧ r.chat.assistant_id = reqChatOverride.assistant_id :=
  create_chat_assistant_presets 5 reqChatOverride [5] [asstPresets] 9 7
    asstPresets rfl rfl rfl (Or.inl rfl)
